import Mathlib

/-!
Verification of the session check-in / task-assignment core of the
Arsenal teamserver (src/teamserver/teamserver/api/session.py), as a
shallow embedding.  The document store is modelled as in-memory lists of
records; clock reads and generated uuids are explicit parameters.  Model
classes (Target, Session, SessionHistory, Action, Agent) and helpers
(create_action, the validation wrapper, the event worker) live outside
src/; where a definition comes from the specification rather than the
source file, its doc comment says so.
-/

deriving instance DecidableEq for Except

namespace Arsenal

/-- Loosely-typed parameter value, as carried by the JSON-ish params map:
a dict (modelled as a string association list), a string, or a number. -/
inductive PVal
  | pDict : List (String × String) → PVal
  | pStr : String → PVal
  | pNum : Nat → PVal
deriving DecidableEq, Repr

/-- Lifecycle state of an Action (spec §3: queued, assigned, completed). -/
inductive ActionState
  | queued
  | assigned
  | complete
deriving DecidableEq, Repr

/-- A Response document attached to a completed action (source lines
159-165: stdout, stderr, start_time, end_time, error). -/
structure ResponseDoc where
  stdout : String
  stderr : String
  start_time : Nat
  end_time : Nat
  error : Bool
deriving DecidableEq, Repr

/-- An Action document.  Modelled from the spec (§3): unique id, bound
target, optional pinned session, type tag, queue timestamp, lifecycle
state, assignee once assigned, Response once completed.  The action
string is kept in tokenized form (the type tag is its first token). -/
structure Action where
  action_id : String
  target_name : String
  bound_session_id : Option String
  action_type : String
  action_string : List String
  queue_time : Nat
  state : ActionState
  session_id : Option String
  response : Option ResponseDoc
deriving DecidableEq, Repr

/-- A Session document (spec §3 and source create_session lines 51-60).
The live-config scalar fields are opaque strings in this model. -/
structure Session where
  session_id : String
  target_name : String
  timestamp : Nat
  servers : String
  interval : String
  interval_delta : String
  config_dict : List (String × String)
  agent_version : Option String
deriving DecidableEq, Repr

/-- A SessionHistory document (source lines 61-64): the session id and
the append-only list of check-in timestamps. -/
structure SessionHistory where
  session_id : String
  checkin_timestamps : List Nat
deriving DecidableEq, Repr

/-- A Target document (spec §3, source lines 41-44): unique name, external
uuid, fact map, observed public IPs. -/
structure Target where
  name : String
  uuid : String
  facts : List (String × String)
  public_ips : List String
deriving DecidableEq, Repr

/-- An Agent capability descriptor (spec §3): version, supported action
type tags, optional default configuration string. -/
structure Agent where
  agent_version : String
  supported_actions : List String
  default_config : String
deriving DecidableEq, Repr

/-- The document store: one list per collection.  Inserts cons to the
front; lookups scan with find?. -/
structure ServerState where
  targets : List Target
  sessions : List Session
  histories : List SessionHistory
  actions : List Action
  agents : List Agent
deriving DecidableEq, Repr

/-- Error taxonomy surfaced by the API layer (spec §7). -/
inductive ApiError
  | validationError (field : String)
  | notFound
  | sessionUnboundTarget
  | invalidState
deriving DecidableEq, Repr

/-- Events published to the event worker; payloads are reduced to the
identifying fields. -/
inductive Event
  | action_complete (action_id : String)
  | session_checkin (session_id : String) (target_name : String)
deriving DecidableEq, Repr

/-- Modelled from the spec (§4.2): Session.get_by_id, NotFound when absent. -/
def Session.get_by_id (st : ServerState) (sid : String) : Option Session :=
  st.sessions.find? (fun s => s.session_id == sid)

/-- Modelled from the spec (§4.1): Target.get_by_name, NotFound when absent. -/
def Target.get_by_name (st : ServerState) (name : String) : Option Target :=
  st.targets.find? (fun t => t.name == name)

/-- Modelled from the spec (§3): Agent.get_by_version; a session with no
declared agent_version resolves no Agent (DoesNotExist). -/
def Agent.get_by_version (st : ServerState) (v : Option String) : Option Agent :=
  match v with
  | none => none
  | some ver => st.agents.find? (fun a => a.agent_version == ver)

/-- Modelled from the spec (§4.3): Action.get_by_id. -/
def Action.get_by_id (st : ServerState) (aid : String) : Option Action :=
  st.actions.find? (fun a => a.action_id == aid)

/-- Modelled from the spec (§4.3): every Action bound to the target that
is unpinned or pinned to this session and still in state queued. -/
def get_target_unassigned_actions (st : ServerState) (tname sid : String) : List Action :=
  st.actions.filter (fun a =>
    decide (a.target_name = tname ∧ a.state = ActionState.queued ∧
      (a.bound_session_id = none ∨ a.bound_session_id = some sid)))

/-- Modelled from the spec (§4.3 and §9): the reference assign_to sets the
assignee and state unconditionally, with no concurrency guard. -/
def Action.assign_to (a : Action) (sid : String) : Action :=
  { a with state := ActionState.assigned, session_id := some sid }

/-- Modelled from the spec (§4.3): submit_response attaches the Response
and moves to completed; fails with InvalidState if one is already
attached, with no overwrite. -/
def Action.submit_response (a : Action) (r : ResponseDoc) : Except ApiError Action :=
  if a.response.isSome then Except.error ApiError.invalidState
  else Except.ok { a with response := some r, state := ActionState.complete }

/-- Persist an updated action document back into the store. -/
def updateAction (st : ServerState) (a : Action) : ServerState :=
  { st with actions := st.actions.map (fun b => if b.action_id == a.action_id then a else b) }

/-- Persist an updated session document back into the store. -/
def updateSession (st : ServerState) (s : Session) : ServerState :=
  { st with sessions := st.sessions.map (fun b => if b.session_id == s.session_id then s else b) }

/-- Look up a key in a string association list. -/
def lookupStr (kvs : List (String × String)) (k : String) : Option String :=
  (kvs.find? (fun p => p.1 == k)).map (fun p => p.2)

/-- Set one key of an association list, last-write-wins, preserving the
other keys. -/
def setKey (kvs : List (String × String)) (k v : String) : List (String × String) :=
  if kvs.any (fun p => p.1 == k) then kvs.map (fun p => if p.1 == k then (k, v) else p)
  else kvs ++ [(k, v)]

/-- Merge the second association list into the first key-by-key,
last-write-wins per key, non-destructive to unspecified keys (spec §4.2). -/
def mergeAssoc (old upd : List (String × String)) : List (String × String) :=
  upd.foldl (fun acc p => setKey acc p.1 p.2) old

/-- Modelled from the spec (§4.1): set_facts merges the given keys into
the target's fact map, last-write-wins per key. -/
def updateTargetFacts (st : ServerState) (tname : String) (kvs : List (String × String)) : ServerState :=
  { st with targets := st.targets.map (fun t =>
      if t.name == tname then { t with facts := mergeAssoc t.facts kvs } else t) }

/-- Modelled from the spec (§4.1): add_public_ip appends the ip if not
already present. -/
def addPublicIp (st : ServerState) (tname ip : String) : ServerState :=
  { st with targets := st.targets.map (fun t =>
      if t.name == tname then
        { t with public_ips := if t.public_ips.contains ip then t.public_ips else t.public_ips ++ [ip] }
      else t) }

/-- Modelled from the spec (§4.2): update_timestamp sets the session's
last-check-in time and appends that time to its SessionHistory. -/
def update_timestamp (st : ServerState) (sid : String) (now : Nat) : ServerState :=
  { st with
    sessions := st.sessions.map (fun s =>
      if s.session_id == sid then { s with timestamp := now } else s),
    histories := st.histories.map (fun h =>
      if h.session_id == sid then { h with checkin_timestamps := h.checkin_timestamps ++ [now] } else h) }

/-- Modelled from the spec (§4.2): update_config overwrites only the
provided, non-null fields and merges config_dict key-by-key. -/
def Session.update_config (s : Session) (interval interval_delta servers : Option String)
    (config_dict : Option (List (String × String))) : Session :=
  { s with
    interval := interval.getD s.interval,
    interval_delta := interval_delta.getD s.interval_delta,
    servers := servers.getD s.servers,
    config_dict :=
      match config_dict with
      | none => s.config_dict
      | some kvs => mergeAssoc s.config_dict kvs }

/-- Modelled from the spec (§4.5 and §3): create_action enqueues a fresh
queued Action for the target, optionally pinned to a session; the type
tag is the first token of the action string. -/
def create_action (st : ServerState) (tname : String) (action_string : List String)
    (bound : Option String) (newActionId : String) (now : Nat) : ServerState :=
  { st with actions :=
      { action_id := newActionId
        target_name := tname
        bound_session_id := bound
        action_type := action_string.headD ""
        action_string := action_string
        queue_time := now
        state := ActionState.queued
        session_id := none
        response := none } :: st.actions }

/-- Default agent configuration constants.  Modelled from the spec: the
config module is outside src/; values are opaque here. -/
def DEFAULT_AGENT_SERVERS : String := "default-servers"

/-- Default polling interval constant, opaque in this model. -/
def DEFAULT_AGENT_INTERVAL : String := "default-interval"

/-- Default interval jitter constant, opaque in this model. -/
def DEFAULT_AGENT_INTERVAL_DELTA : String := "default-interval-delta"

/-- Default extra-config constant, opaque in this model. -/
def DEFAULT_AGENT_CONFIG_DICT : List (String × String) := []

/-- One submitted action response from the check-in params (source lines
153-165); stderr may be null. -/
structure RespInput where
  action_id : String
  stdout : String
  stderr : Option String
  start_time : Nat
  end_time : Nat
  error : Bool
deriving DecidableEq, Repr

/-- Parameters of session_check_in (source docstring lines 117-122); a
missing key is none, optional loosely-typed values carry their runtime
type as a PVal. -/
structure CheckInParams where
  session_id : Option String
  responses : Option (List RespInput)
  facts : Option PVal
  config : Option PVal
  public_ip : Option PVal
deriving DecidableEq, Repr

/-- One entry of the returned actions list: the action's agent-facing
document.  Modelled from the spec (§6: action_id, action_type,
parameters, priority, ...); the queue timestamp is carried so the
delivery-order property can be stated on the response itself. -/
structure AgentDoc where
  action_id : String
  action_type : String
  queue_time : Nat
  priority : Nat
deriving DecidableEq, Repr

/-- The success payload of session_check_in (source line 223). -/
structure CheckInResult where
  session_id : String
  actions : List AgentDoc
deriving DecidableEq, Repr

/-- Full outcome of a check-in call: the structured result, the store
state after all persisted writes (also the partial writes made before an
abort), and the published events in order. -/
structure CheckInOutcome where
  result : Except ApiError CheckInResult
  state : ServerState
  events : List Event
deriving DecidableEq, Repr

/-- Null-stderr normalization (source lines 156-157): a null stderr is
replaced by the empty string. -/
def normStderr (s : Option String) : String :=
  match s with
  | none => ""
  | some v => v

/-- Build the Response document from one submitted response item (source
lines 159-165). -/
def buildResponse (r : RespInput) : ResponseDoc :=
  { stdout := r.stdout, stderr := normStderr r.stderr,
    start_time := r.start_time, end_time := r.end_time, error := r.error }

/-- The response-submission loop of session_check_in (source lines
150-173): for each response resolve the Action by id, normalize a null
stderr to the empty string, build a Response, submit it, and publish an
action_complete event unless events are disabled.  An unresolved action
id or an InvalidState stops the loop and aborts the call, keeping the
writes made so far. -/
def processResponses (disableEvents : Bool) :
    List RespInput → ServerState → Option ApiError × ServerState × List Event
  | [], st => (none, st, [])
  | r :: rest, st =>
    match Action.get_by_id st r.action_id with
    | none => (some ApiError.notFound, st, [])
    | some action =>
      match action.submit_response (buildResponse r) with
      | Except.error e => (some e, st, [])
      | Except.ok a2 =>
        let st2 := updateAction st a2
        let ev := if disableEvents then [] else [Event.action_complete a2.action_id]
        let res := processResponses disableEvents rest st2
        (res.1, res.2.1, ev ++ res.2.2)

/-- Queue-timestamp order on actions, the sort key of the gather step
(source line 183). -/
def queueLe (a b : Action) : Prop :=
  a.queue_time ≤ b.queue_time

instance : DecidableRel queueLe :=
  fun a b => Nat.decLe a.queue_time b.queue_time

instance : IsTotal Action queueLe :=
  ⟨fun a b => Nat.le_total a.queue_time b.queue_time⟩

instance : IsTrans Action queueLe :=
  ⟨fun _ _ _ h h2 => Nat.le_trans h h2⟩

/-- Python's sorted(actions_raw, key=queue_time) (source line 183): a
stable sort by ascending queue timestamp, modelled by insertion sort. -/
def sortByQueueTime (l : List Action) : List Action :=
  List.insertionSort queueLe l

/-- The capability bypass test of the assignment loop (source line 185):
skip an action whose type the resolved Agent does not support; with no
resolved Agent nothing is skipped. -/
def bypassed (agent : Option Agent) (a : Action) : Bool :=
  match agent with
  | some ag => !(ag.supported_actions.contains a.action_type)
  | none => false

/-- The assignment loop of session_check_in (source lines 182-193): walk
the sorted candidates, skip bypassed ones, assign each survivor to the
session, tag its document with the running priority counter, and
persist. -/
def assignLoop (sid : String) (agent : Option Agent) :
    List Action → Nat → ServerState → List AgentDoc × ServerState
  | [], _, st => ([], st)
  | a :: rest, priority, st =>
    if bypassed agent a then
      assignLoop sid agent rest priority st
    else
      let st2 := updateAction st (a.assign_to sid)
      let doc : AgentDoc :=
        { action_id := a.action_id, action_type := a.action_type,
          queue_time := a.queue_time, priority := priority }
      let res := assignLoop sid agent rest (priority + 1) st2
      (doc :: res.1, res.2)

/-- The tail of session_check_in after response submission (source lines
177-223): abort if a response failed, else gather, sort, filter, assign
new actions, apply the config / facts / public_ip deltas when well-typed
and truthy, publish the session_checkin event unless disabled, and
return the assigned docs.  pr is the output of the response loop. -/
def checkInTail (sid tname : String) (agent : Option Agent) (p : CheckInParams)
    (disableEvents : Bool) (pr : Option ApiError × ServerState × List Event) : CheckInOutcome :=
  match pr.1 with
  | some e => ⟨Except.error e, pr.2.1, pr.2.2⟩
  | none =>
    let st2 := pr.2.1
    let actions_raw := get_target_unassigned_actions st2 tname sid
    let ar := assignLoop sid agent (sortByQueueTime actions_raw) 0 st2
    let st3 := ar.2
    let st4 :=
      match p.config with
      | some (PVal.pDict kvs) =>
        if kvs.isEmpty then st3
        else
          match Session.get_by_id st3 sid with
          | some s =>
            updateSession st3 (s.update_config (lookupStr kvs "interval")
              (lookupStr kvs "interval_delta") (lookupStr kvs "servers") (some kvs))
          | none => st3
      | _ => st3
    let st5 :=
      match p.facts with
      | some (PVal.pDict kvs) =>
        if kvs.isEmpty then st4 else updateTargetFacts st4 tname kvs
      | _ => st4
    let st6 :=
      match p.public_ip with
      | some (PVal.pStr s) =>
        if s == "" then st5 else addPublicIp st5 tname s
      | _ => st5
    let evs2 := if disableEvents then [] else [Event.session_checkin sid tname]
    ⟨Except.ok ⟨sid, ar.1⟩, st6, pr.2.2 ++ evs2⟩

/-- session_check_in (source lines 109-223).  The ambient clock read and
the DISABLE_EVENTS app-config flag are explicit parameters.  Steps in
source order: resolve Session (missing key is a structured validation
failure, modelled from the spec §6 since the validation wrapper is
outside src/), resolve Target (SessionUnboundTarget when missing),
resolve Agent (absence is non-fatal), update timestamp and history,
submit responses, then the checkInTail steps. -/
def session_check_in (p : CheckInParams) (st : ServerState)
    (disableEvents : Bool) (now : Nat) : CheckInOutcome :=
  match p.session_id with
  | none => ⟨Except.error (ApiError.validationError "session_id"), st, []⟩
  | some sid =>
    match Session.get_by_id st sid with
    | none => ⟨Except.error ApiError.notFound, st, []⟩
    | some session =>
      match Target.get_by_name st session.target_name with
      | none => ⟨Except.error ApiError.sessionUnboundTarget, st, []⟩
      | some _target =>
        let agent := Agent.get_by_version st session.agent_version
        let st1 := update_timestamp st sid now
        let resps := p.responses.getD []
        checkInTail sid session.target_name agent p disableEvents
          (processResponses disableEvents resps st1)

/-- Parameters of create_session (source docstring lines 25-35). -/
structure CreateSessionParams where
  target_uuid : Option String
  servers : Option String
  interval : Option String
  interval_delta : Option String
  config_dict : Option (List (String × String))
  facts : Option PVal
  agent_version : Option String
deriving DecidableEq, Repr

/-- Outcome of create_session: the structured result (the new session id
on success) and the store state after all writes. -/
structure CreateOutcome where
  result : Except ApiError String
  state : ServerState
deriving DecidableEq, Repr

/-- The target-resolution, session-creation and facts steps of
create_session (source lines 37-71): fetch or auto-create the Target,
create Session and SessionHistory seeded with the creation timestamp,
and apply facts when well-typed and truthy.  Returns the resolved
Target together with the updated store. -/
def createSessionCore (p : CreateSessionParams) (st : ServerState) (uuid : String)
    (newTargetName newSessionId : String) (now : Nat) : Target × ServerState :=
  let found := st.targets.find? (fun t => t.uuid == uuid)
  let target :=
    match found with
    | some t => t
    | none => { name := newTargetName, uuid := uuid, facts := [], public_ips := [] }
  let st1 :=
    match found with
    | some _ => st
    | none => { st with targets := target :: st.targets }
  let session : Session :=
    { session_id := newSessionId
      target_name := target.name
      timestamp := now
      servers := p.servers.getD DEFAULT_AGENT_SERVERS
      interval := p.interval.getD DEFAULT_AGENT_INTERVAL
      interval_delta := p.interval_delta.getD DEFAULT_AGENT_INTERVAL_DELTA
      config_dict := p.config_dict.getD DEFAULT_AGENT_CONFIG_DICT
      agent_version := p.agent_version }
  let history : SessionHistory :=
    { session_id := newSessionId, checkin_timestamps := [now] }
  let st2 := { st1 with histories := history :: st1.histories,
                        sessions := session :: st1.sessions }
  let st3 :=
    match p.facts with
    | some (PVal.pDict kvs) =>
      if kvs.isEmpty then st2 else updateTargetFacts st2 target.name kvs
    | _ => st2
  (target, st3)

/-- create_session (source lines 19-95).  Generated uuids and the clock
read are explicit parameters.  After the createSessionCore steps, when
an agent_version is given and resolves to an Agent with a non-empty
default_config, enqueue a config action pinned to the new session; a
failed Agent resolution is silently ignored (source lines 77-93). -/
def create_session (p : CreateSessionParams) (st : ServerState)
    (newTargetName newSessionId newActionId : String) (now : Nat) : CreateOutcome :=
  match p.target_uuid with
  | none => ⟨Except.error (ApiError.validationError "target_uuid"), st⟩
  | some uuid =>
    let core := createSessionCore p st uuid newTargetName newSessionId now
    let st4 :=
      match p.agent_version with
      | some v =>
        if v == "" then core.2
        else
          match Agent.get_by_version core.2 (some v) with
          | some ag =>
            if ag.default_config == "" then core.2
            else create_action core.2 core.1.name ["config", "-c", ag.default_config]
              (some newSessionId) newActionId now
          | none => core.2
      | none => core.2
    ⟨Except.ok newSessionId, st4⟩

/-- get_session (source lines 97-107): resolve by id, NotFound when
absent; a missing session_id key is a structured validation failure
(modelled from the spec §6). -/
def get_session (session_id : Option String) (st : ServerState) : Except ApiError Session :=
  match session_id with
  | none => Except.error (ApiError.validationError "session_id")
  | some sid =>
    match Session.get_by_id st sid with
    | none => Except.error ApiError.notFound
    | some s => Except.ok s

/-- Parameters of update_session_config (source docstring lines 236-241). -/
structure UpdateConfigParams where
  session_id : Option String
  config_dict : Option (List (String × String))
  servers : Option String
  interval : Option String
  interval_delta : Option String
deriving DecidableEq, Repr

/-- update_session_config (source lines 225-252): resolve the session,
apply update_config with the optional fields, persist, and return the
updated config map. -/
def update_session_config (p : UpdateConfigParams) (st : ServerState) :
    Except ApiError (List (String × String)) × ServerState :=
  match p.session_id with
  | none => (Except.error (ApiError.validationError "session_id"), st)
  | some sid =>
    match Session.get_by_id st sid with
    | none => (Except.error ApiError.notFound, st)
    | some s =>
      let s2 := s.update_config p.interval p.interval_delta p.servers p.config_dict
      (Except.ok s2.config_dict, updateSession st s2)

/-- The gather phase of a check-in in isolation (source lines 178-183):
the sorted snapshot of unassigned candidates this check-in will walk. -/
def gatherPhase (st : ServerState) (tname sid : String) : List Action :=
  sortByQueueTime (get_target_unassigned_actions st tname sid)

/-- An interleaved execution of the gather and assign phases of two
concurrent check-ins over one target, as permitted by the source, whose
assignment loop runs with no locking (source line 175, the TODO): both
callers snapshot the unassigned set before either has persisted an
assignment, then both assign.  Returns both response doc lists and the
final store state. -/
def racyDoubleCheckIn (st : ServerState) (tname sidA sidB : String)
    (agentA agentB : Option Agent) : List AgentDoc × List AgentDoc × ServerState :=
  let snapA := gatherPhase st tname sidA
  let snapB := gatherPhase st tname sidB
  let ra := assignLoop sidA agentA snapA 0 st
  let rb := assignLoop sidB agentB snapB 0 ra.2
  (ra.1, rb.1, rb.2)

/-- The minimal check-in parameter map: just the session id. -/
def minCheckInParams (sid : String) : CheckInParams :=
  { session_id := some sid, responses := none, facts := none, config := none, public_ip := none }

/-- Iterate minimal check-ins at the given clock readings, threading the
store state. -/
def iterCheckIns (sid : String) (de : Bool) : List Nat → ServerState → ServerState
  | [], st => st
  | t :: ts, st => iterCheckIns sid de ts (session_check_in (minCheckInParams sid) st de t).state

/-! ### Helper lemmas -/

theorem find?_map_pres {α : Type} (g : α → α) (p : α → Bool)
    (hp : ∀ a, p (g a) = p a) :
    ∀ l : List α, (l.map g).find? p = (l.find? p).map g := by
  intro l
  induction l with
  | nil => rfl
  | cons a l ih =>
    simp only [List.map_cons, List.find?_cons, hp a]
    cases h : p a
    · simpa [h] using ih
    · simp [h]

theorem assignLoop_preserves (sid : String) (ag : Option Agent) (l : List Action) :
    ∀ (n : Nat) (st : ServerState),
      (assignLoop sid ag l n st).2.targets = st.targets ∧
      (assignLoop sid ag l n st).2.sessions = st.sessions ∧
      (assignLoop sid ag l n st).2.histories = st.histories ∧
      (assignLoop sid ag l n st).2.agents = st.agents := by
  induction l with
  | nil => intro n st; simp [assignLoop]
  | cons a l ih =>
    intro n st
    cases h : bypassed ag a <;> simp [assignLoop, h, ih, updateAction]

theorem processResponses_preserves (de : Bool) (l : List RespInput) :
    ∀ st : ServerState,
      (processResponses de l st).2.1.targets = st.targets ∧
      (processResponses de l st).2.1.sessions = st.sessions ∧
      (processResponses de l st).2.1.histories = st.histories ∧
      (processResponses de l st).2.1.agents = st.agents := by
  induction l with
  | nil => intro st; simp [processResponses]
  | cons r l ih =>
    intro st
    simp only [processResponses]
    split
    · exact ⟨rfl, rfl, rfl, rfl⟩
    · split
      · exact ⟨rfl, rfl, rfl, rfl⟩
      · exact ih _

theorem processResponses_flag (l : List RespInput) :
    ∀ st : ServerState,
      (processResponses true l st).1 = (processResponses false l st).1 ∧
      (processResponses true l st).2.1 = (processResponses false l st).2.1 ∧
      (processResponses true l st).2.2 = [] := by
  induction l with
  | nil => intro st; simp [processResponses]
  | cons r l ih =>
    intro st
    simp only [processResponses]
    split
    · exact ⟨rfl, rfl, rfl⟩
    · split
      · exact ⟨rfl, rfl, rfl⟩
      · rename_i a2 hS
        rcases ih (updateAction st a2) with ⟨h1, h2, h3⟩
        refine ⟨h1, h2, ?_⟩
        simp [h3]

theorem assignLoop_priorities (sid : String) (ag : Option Agent) (l : List Action) :
    ∀ (n : Nat) (st : ServerState),
      (assignLoop sid ag l n st).1.map (fun d => d.priority) =
        List.range' n (assignLoop sid ag l n st).1.length := by
  induction l with
  | nil => intro n st; simp [assignLoop]
  | cons a l ih =>
    intro n st
    cases h : bypassed ag a
    · simp only [assignLoop, h, Bool.false_eq_true, if_false, List.map_cons,
        List.length_cons, List.range'_succ]
      rw [ih]
    · simp only [assignLoop, h, if_true]
      exact ih n st

theorem assignLoop_queue_times_sublist (sid : String) (ag : Option Agent) (l : List Action) :
    ∀ (n : Nat) (st : ServerState),
      ((assignLoop sid ag l n st).1.map (fun d => d.queue_time)).Sublist
        (l.map (fun a => a.queue_time)) := by
  induction l with
  | nil => intro n st; simp [assignLoop]
  | cons a l ih =>
    intro n st
    cases h : bypassed ag a
    · simpa [assignLoop, h] using
        List.Sublist.cons₂ a.queue_time (ih (n + 1) (updateAction st (a.assign_to sid)))
    · simpa [assignLoop, h] using List.Sublist.cons a.queue_time (ih n st)

theorem assignLoop_docs_not_bypassed (sid : String) (ag : Option Agent) (l : List Action) :
    ∀ (n : Nat) (st : ServerState) (d : AgentDoc), d ∈ (assignLoop sid ag l n st).1 →
      ∃ a : Action, a ∈ l ∧ bypassed ag a = false ∧
        d.action_type = a.action_type ∧ d.action_id = a.action_id := by
  induction l with
  | nil => intro n st d hd; simp [assignLoop] at hd
  | cons a l ih =>
    intro n st d hd
    cases h : bypassed ag a
    · simp only [assignLoop, h, Bool.false_eq_true, if_false, List.mem_cons] at hd
      rcases hd with hd | hd
      · exact ⟨a, List.mem_cons_self a l, h, by simp [hd]⟩
      · rcases ih (n + 1) (updateAction st (a.assign_to sid)) d hd with ⟨b, hb, hb2, hb3, hb4⟩
        exact ⟨b, List.mem_cons_of_mem a hb, hb2, hb3, hb4⟩
    · simp only [assignLoop, h, if_true] at hd
      rcases ih n st d hd with ⟨b, hb, hb2, hb3, hb4⟩
      exact ⟨b, List.mem_cons_of_mem a hb, hb2, hb3, hb4⟩

theorem assignLoop_ids_of_none (sid : String) (l : List Action) :
    ∀ (n : Nat) (st : ServerState),
      (assignLoop sid none l n st).1.map (fun d => d.action_id) =
        l.map (fun a => a.action_id) := by
  induction l with
  | nil => intro n st; simp [assignLoop]
  | cons a l ih =>
    intro n st
    simp only [assignLoop, bypassed, Bool.false_eq_true, if_false, List.map_cons]
    rw [ih]

theorem assignLoop_state_mem (sid : String) (ag : Option Agent) (l : List Action) :
    ∀ (n : Nat) (st : ServerState) (a2 : Action), a2 ∈ (assignLoop sid ag l n st).2.actions →
      a2 ∈ st.actions ∨
        (a2.state = ActionState.assigned ∧ a2.session_id = some sid ∧ bypassed ag a2 = false) := by
  induction l with
  | nil => intro n st a2 h2; simpa [assignLoop] using Or.inl h2
  | cons a l ih =>
    intro n st a2 h2
    cases h : bypassed ag a
    · simp only [assignLoop, h, Bool.false_eq_true, if_false] at h2
      rcases ih (n + 1) (updateAction st (a.assign_to sid)) a2 h2 with hmem | hprops
      · simp only [updateAction, List.mem_map] at hmem
        rcases hmem with ⟨b, hb, hbeq⟩
        by_cases hid : (b.action_id == (a.assign_to sid).action_id) = true
        · refine Or.inr ?_
          rw [if_pos hid] at hbeq
          subst hbeq
          refine ⟨rfl, rfl, ?_⟩
          have hby : bypassed ag (a.assign_to sid) = bypassed ag a := by
            cases ag <;> rfl
          rw [hby, h]
        · rw [if_neg hid] at hbeq
          subst hbeq
          exact Or.inl hb
      · exact Or.inr hprops
    · simp only [assignLoop, h, if_true] at h2
      exact ih n st a2 h2

theorem processResponses_state_mem (de : Bool) (l : List RespInput) :
    ∀ (st : ServerState) (a2 : Action), a2 ∈ (processResponses de l st).2.1.actions →
      a2 ∈ st.actions ∨ a2.state = ActionState.complete := by
  induction l with
  | nil => intro st a2 h2; simpa [processResponses] using Or.inl h2
  | cons r l ih =>
    intro st a2 h2
    simp only [processResponses] at h2
    split at h2
    · exact Or.inl h2
    · split at h2
      · exact Or.inl h2
      · rename_i a3 hS
        have h3state : a3.state = ActionState.complete := by
          unfold Action.submit_response at hS
          split at hS
          · exact absurd hS (by simp)
          · cases hS
            rfl
        rcases ih (updateAction st a3) a2 h2 with hmem | hc
        · simp only [updateAction, List.mem_map] at hmem
          rcases hmem with ⟨b, hb, hbeq⟩
          by_cases hid : (b.action_id == a3.action_id) = true
          · rw [if_pos hid] at hbeq
            subst hbeq
            exact Or.inr h3state
          · rw [if_neg hid] at hbeq
            subst hbeq
            exact Or.inl hb
        · exact Or.inr hc


/-! ### Concrete scenario fixtures -/

/-- A target named t1 with external id u1. -/
def wTarget : Target := ⟨"t1", "u1", [], []⟩

/-- A session s1 on t1 with no declared agent_version. -/
def wSession : Session := ⟨"s1", "t1", 0, "sv", "iv", "ivd", [], none⟩

/-- The history of s1, seeded with its creation timestamp. -/
def wHistory : SessionHistory := ⟨"s1", [0]⟩

/-- A second session s2 on the same target t1. -/
def wSessionB : Session := ⟨"s2", "t1", 0, "sv", "iv", "ivd", [], none⟩

/-- The history of s2. -/
def wHistoryB : SessionHistory := ⟨"s2", [0]⟩

/-- A queued shell action for t1 with queue timestamp 100. -/
def wShell100 : Action := ⟨"a100", "t1", none, "shell", ["shell"], 100, ActionState.queued, none, none⟩

/-- A queued shell action for t1 with queue timestamp 50. -/
def wShell50 : Action := ⟨"a50", "t1", none, "shell", ["shell"], 50, ActionState.queued, none, none⟩

/-- A queued upload action for t1 with queue timestamp 70. -/
def wUpload70 : Action := ⟨"a70", "t1", none, "upload", ["upload"], 70, ActionState.queued, none, none⟩

/-- An action already assigned to s1, awaiting its response. -/
def wAssigned : Action := ⟨"aResp", "t1", none, "shell", ["shell"], 10, ActionState.assigned, some "s1", none⟩

/-- An agent definition supporting only shell and config actions. -/
def wAgent : Agent := ⟨"v1", ["shell", "config"], "beacon"⟩

/-- A session s3 on t1 declaring agent_version v1. -/
def wSessionV : Session := ⟨"s3", "t1", 0, "sv", "iv", "ivd", [], some "v1"⟩

/-- The history of s3. -/
def wHistoryV : SessionHistory := ⟨"s3", [0]⟩

/-- The baseline store: t1, session s1, two queued shell actions queued
out of timestamp order. -/
def wState : ServerState := ⟨[wTarget], [wSession], [wHistory], [wShell100, wShell50], []⟩

/-- A store whose session s1 references a target that does not exist. -/
def wOrphanState : ServerState := ⟨[], [wSession], [wHistory], [], []⟩

/-- A store with two sessions sharing target t1 and one queued action. -/
def wRaceState : ServerState :=
  ⟨[wTarget], [wSession, wSessionB], [wHistory, wHistoryB], [wShell50], []⟩

/-- A store with an assigned action awaiting response and a queued one. -/
def wBatchState : ServerState := ⟨[wTarget], [wSession], [wHistory], [wAssigned, wShell50], []⟩

/-- A store with no actions at all. -/
def wQuietState : ServerState := ⟨[wTarget], [wSession], [wHistory], [], []⟩

/-- A store with the v1 agent definition, session s3 declaring it, and
queued shell and upload actions. -/
def wFilterState : ServerState :=
  ⟨[wTarget], [wSessionV, wSession], [wHistoryV, wHistory], [wShell50, wUpload70], [wAgent]⟩

/-- A response referencing an action id that does not exist. -/
def wBadResp : RespInput := ⟨"missing", "out", none, 1, 2, false⟩

/-- A well-formed response for the assigned action aResp. -/
def wGoodResp : RespInput := ⟨"aResp", "out", some "err", 1, 2, false⟩

/-- Check-in params for s1 carrying the bad response before the good one. -/
def wBatchParams : CheckInParams := ⟨some "s1", some [wBadResp, wGoodResp], none, none, none⟩

/-- Check-in params for s1 whose facts field has the wrong runtime type
(a string instead of a dict). -/
def wStrFactsParams : CheckInParams := ⟨some "s1", none, some (PVal.pStr "oops"), none, none⟩

/-! ### Claim theorems -/

/-- C1.  The claim (spec §5): the queued-to-assigned transition is an
atomically-visible conditional update, so an action is never handed to
two sessions.  The code violates it: the assignment loop runs with no
locking (source line 175 is a TODO admitting it), and assign_to writes
unconditionally, so in the interleaving where two check-ins for target
t1 both gather the unassigned snapshot before either persists an
assignment, the single queued action a50 appears in both responses. -/
theorem race_duplicate_assignment :
    ((racyDoubleCheckIn wRaceState "t1" "s1" "s2" none none).1.map fun d => d.action_id) = ["a50"] ∧
    ((racyDoubleCheckIn wRaceState "t1" "s1" "s2" none none).2.1.map fun d => d.action_id) = ["a50"] ∧
    (racyDoubleCheckIn wRaceState "t1" "s1" "s2" none none).2.2.actions =
      [{ wShell50 with state := ActionState.assigned, session_id := some "s2" }] := by
  decide

/-- C5.  The claim says a failure on one response item is reported per
item and does not abort the check-in.  The code violates it: with the
batch [unknown id, valid response], the whole call fails with NotFound,
the valid response is never attached, no new action is assigned and no
event fires — while the earlier liveness write (timestamp and history
append) has already been persisted. -/
theorem checkin_aborts_on_unknown_action :
    (session_check_in wBatchParams wBatchState false 5).result = Except.error ApiError.notFound ∧
    (session_check_in wBatchParams wBatchState false 5).state =
      { wBatchState with
        sessions := [{ wSession with timestamp := 5 }],
        histories := [{ wHistory with checkin_timestamps := [0, 5] }] } ∧
    (session_check_in wBatchParams wBatchState false 5).events = [] := by
  decide

/-- C7.  A check-in whose session_id resolves to no Session fails with
NotFound and performs no write at all: the returned state is the input
state, so in particular no Session is auto-registered. -/
theorem checkin_unknown_session_rejected (p : CheckInParams) (st : ServerState)
    (de : Bool) (now : Nat) (sid : String)
    (hsid : p.session_id = some sid)
    (hmiss : Session.get_by_id st sid = none) :
    session_check_in p st de now = ⟨Except.error ApiError.notFound, st, []⟩ := by
  simp [session_check_in, hsid, hmiss]

/-- C7 witness: checking in an unknown session id against the baseline
store fails with NotFound and leaves the store untouched. -/
theorem checkin_unknown_session_rejected_witness :
    session_check_in (minCheckInParams "nope") wState false 9 =
      ⟨Except.error ApiError.notFound, wState, []⟩ :=
  checkin_unknown_session_rejected (minCheckInParams "nope") wState false 9 "nope" rfl (by decide)

/-- C6.  A check-in whose session exists but whose target_name resolves
to no Target fails with SessionUnboundTarget and performs no write at
all: the returned state is the input state, so no Target is created and
no later step (history append, response submission, assignment) runs. -/
theorem checkin_unbound_target_faults (p : CheckInParams) (st : ServerState)
    (de : Bool) (now : Nat) (sid : String) (s : Session)
    (hsid : p.session_id = some sid)
    (hsess : Session.get_by_id st sid = some s)
    (htgt : Target.get_by_name st s.target_name = none) :
    session_check_in p st de now = ⟨Except.error ApiError.sessionUnboundTarget, st, []⟩ := by
  simp [session_check_in, hsid, hsess, htgt]

/-- C6 witness: checking in s1 against the orphan store (its target was
deleted) fails with SessionUnboundTarget and leaves the store untouched. -/
theorem checkin_unbound_target_faults_witness :
    session_check_in (minCheckInParams "s1") wOrphanState false 9 =
      ⟨Except.error ApiError.sessionUnboundTarget, wOrphanState, []⟩ :=
  checkin_unbound_target_faults (minCheckInParams "s1") wOrphanState false 9 "s1" wSession
    rfl (by decide) (by decide)

theorem processResponses_flag_eq (l : List RespInput) (st : ServerState) :
    processResponses true l st =
      ((processResponses false l st).1, (processResponses false l st).2.1, []) := by
  obtain ⟨h1, h2, h3⟩ := processResponses_flag l st
  exact Prod.ext h1 (Prod.ext h2 h3)

theorem checkInTail_flag (sid tname : String) (agent : Option Agent) (p : CheckInParams)
    (pr : Option ApiError × ServerState × List Event) :
    (checkInTail sid tname agent p true (pr.1, pr.2.1, [])).result =
      (checkInTail sid tname agent p false pr).result ∧
    (checkInTail sid tname agent p true (pr.1, pr.2.1, [])).state =
      (checkInTail sid tname agent p false pr).state ∧
    (checkInTail sid tname agent p true (pr.1, pr.2.1, [])).events = [] := by
  cases h : pr.1
  · unfold checkInTail
    rw [h]
    exact ⟨rfl, rfl, rfl⟩
  · unfold checkInTail
    rw [h]
    exact ⟨rfl, rfl, rfl⟩

/-- C10.  The DISABLE_EVENTS flag only gates event publication (source
lines 169-173 and 214-220): the structured result and the whole store
state after a check-in are identical with the flag on and off, and with
the flag on no event (neither action_complete nor session_checkin) is
published. -/
theorem event_flag_noninterference (p : CheckInParams) (st : ServerState) (now : Nat) :
    (session_check_in p st true now).result = (session_check_in p st false now).result ∧
    (session_check_in p st true now).state = (session_check_in p st false now).state ∧
    (session_check_in p st true now).events = [] := by
  cases hsid : p.session_id
  · simp [session_check_in, hsid]
  case some sid =>
    cases hS : Session.get_by_id st sid
    · simp [session_check_in, hsid, hS]
    case some session =>
      cases hT : Target.get_by_name st session.target_name
      · simp [session_check_in, hsid, hS, hT]
      case some tgt =>
        simp only [session_check_in, hsid, hS, hT]
        rw [processResponses_flag_eq]
        exact checkInTail_flag sid session.target_name
          (Agent.get_by_version st session.agent_version) p
          (processResponses false (p.responses.getD []) (update_timestamp st sid now))

theorem checkInTail_ok (sid tname : String) (agent : Option Agent) (p : CheckInParams)
    (de : Bool) (pr : Option ApiError × ServerState × List Event)
    (sid2 : String) (docs : List AgentDoc)
    (hres : (checkInTail sid tname agent p de pr).result = Except.ok ⟨sid2, docs⟩) :
    pr.1 = none ∧
    docs = (assignLoop sid agent
      (sortByQueueTime (get_target_unassigned_actions pr.2.1 tname sid)) 0 pr.2.1).1 := by
  cases h : pr.1
  · unfold checkInTail at hres
    rw [h] at hres
    simp only [CheckInOutcome.mk.injEq] at hres
    refine ⟨rfl, ?_⟩
    have := hres
    simp only [Except.ok.injEq, CheckInResult.mk.injEq] at this
    exact this.2.symm
  · unfold checkInTail at hres
    rw [h] at hres
    simp at hres

/-- C2.  Every successful check-in returns its actions in ascending
queue-timestamp order (the stable sort of source line 183, preserved by
the filtering loop), and their priority fields are exactly 0..k-1 in
that same order (the counter of lines 182-193 advances only on emitted
actions, so filtered-out actions consume no priority number). -/
theorem checkin_ordering (p : CheckInParams) (st : ServerState) (de : Bool) (now : Nat)
    (sid2 : String) (docs : List AgentDoc)
    (hres : (session_check_in p st de now).result = Except.ok ⟨sid2, docs⟩) :
    List.Sorted (fun a b => a ≤ b) (docs.map fun d => d.queue_time) ∧
    docs.map (fun d => d.priority) = List.range docs.length := by
  cases hsid : p.session_id
  · simp [session_check_in, hsid] at hres
  case some sid =>
    cases hS : Session.get_by_id st sid
    · simp [session_check_in, hsid, hS] at hres
    case some session =>
      cases hT : Target.get_by_name st session.target_name
      · simp [session_check_in, hsid, hS, hT] at hres
      case some tgt =>
        simp only [session_check_in, hsid, hS, hT] at hres
        obtain ⟨hpr, hdocs⟩ := checkInTail_ok _ _ _ _ _ _ _ _ hres
        constructor
        · rw [hdocs]
          refine List.Pairwise.sublist (assignLoop_queue_times_sublist _ _ _ _ _) ?_
          refine (List.pairwise_map).mpr ?_
          exact List.sorted_insertionSort queueLe _
        · rw [hdocs, assignLoop_priorities, ← List.range_eq_range']

/-- C2 witness: checking in s1 against the baseline store returns the
two shell actions sorted by queue timestamp (50 before 100) with
priorities 0 and 1. -/
theorem checkin_ordering_witness :
    List.Sorted (fun a b => a ≤ b)
      (([⟨"a50", "shell", 50, 0⟩, ⟨"a100", "shell", 100, 1⟩] : List AgentDoc).map
        fun d => d.queue_time) ∧
    ([⟨"a50", "shell", 50, 0⟩, ⟨"a100", "shell", 100, 1⟩] : List AgentDoc).map
        (fun d => d.priority) =
      List.range ([⟨"a50", "shell", 50, 0⟩, ⟨"a100", "shell", 100, 1⟩] : List AgentDoc).length :=
  checkin_ordering (minCheckInParams "s1") wState false 5 "s1"
    [⟨"a50", "shell", 50, 0⟩, ⟨"a100", "shell", 100, 1⟩] (by decide)

theorem checkInTail_state_actions (sid tname : String) (agent : Option Agent)
    (p : CheckInParams) (de : Bool) (pr : Option ApiError × ServerState × List Event)
    (hpr : pr.1 = none) :
    (checkInTail sid tname agent p de pr).state.actions =
      (assignLoop sid agent
        (sortByQueueTime (get_target_unassigned_actions pr.2.1 tname sid)) 0 pr.2.1).2.actions := by
  obtain ⟨o, stpr, evs⟩ := pr
  simp only at hpr
  subst hpr
  simp only [checkInTail]
  repeat' split
  all_goals rfl

/-- C3.  With a resolved Agent definition, every returned action's type
is in the Agent's supported set, and every action document in the store
after the check-in is either unchanged, completed by a response, or
newly assigned to this session with a supported type — so an action of
an unsupported type is never assigned nor returned (source line 185).
With no resolved Agent and no response batch, no filtering applies: the
returned ids are exactly the sorted eligible candidates. -/
theorem checkin_capability_filtering (p : CheckInParams) (st : ServerState) (de : Bool)
    (now : Nat) (sid sid2 : String) (session : Session) (docs : List AgentDoc)
    (hsid : p.session_id = some sid)
    (hsess : Session.get_by_id st sid = some session)
    (hres : (session_check_in p st de now).result = Except.ok ⟨sid2, docs⟩) :
    (∀ ag : Agent, Agent.get_by_version st session.agent_version = some ag →
      (∀ d ∈ docs, d.action_type ∈ ag.supported_actions) ∧
      (∀ a2 ∈ (session_check_in p st de now).state.actions,
        a2 ∈ st.actions ∨ a2.state = ActionState.complete ∨
          (a2.state = ActionState.assigned ∧ a2.session_id = some sid ∧
            a2.action_type ∈ ag.supported_actions))) ∧
    (Agent.get_by_version st session.agent_version = none → p.responses = none →
      docs.map (fun d => d.action_id) =
        (gatherPhase st session.target_name sid).map (fun a => a.action_id)) := by
  cases hT : Target.get_by_name st session.target_name
  · simp [session_check_in, hsid, hsess, hT] at hres
  case some tgt =>
    simp only [session_check_in, hsid, hsess, hT] at hres
    obtain ⟨hpr, hdocs⟩ := checkInTail_ok _ _ _ _ _ _ _ _ hres
    constructor
    · intro ag hag
      constructor
      · intro d hd
        rw [hdocs, hag] at hd
        obtain ⟨a, _, hbyp, htype, _⟩ := assignLoop_docs_not_bypassed _ _ _ _ _ _ hd
        rw [htype]
        simp only [bypassed, Bool.not_eq_false] at hbyp
        simpa using hbyp
      · intro a2 ha2
        have hstact := checkInTail_state_actions sid session.target_name
          (Agent.get_by_version st session.agent_version) p de _ hpr
        simp only [session_check_in, hsid, hsess, hT] at ha2
        rw [hstact] at ha2
        rcases assignLoop_state_mem _ _ _ _ _ _ ha2 with hmem | ⟨hst, hid, hbyp⟩
        · rcases processResponses_state_mem _ _ _ _ hmem with hmem2 | hc
          · exact Or.inl hmem2
          · exact Or.inr (Or.inl hc)
        · refine Or.inr (Or.inr ⟨hst, hid, ?_⟩)
          rw [hag] at hbyp
          simp only [bypassed, Bool.not_eq_false] at hbyp
          simpa using hbyp
    · intro hag hresp
      rw [hdocs, hag, hresp]
      rw [assignLoop_ids_of_none]
      rfl

/-- C3 witness: for session s3 declaring agent v1 (shell and config
only), the queued upload action is filtered out and the returned shell
doc's type is supported; for session s1 with no declared agent_version,
both queued actions are returned, matching the sorted eligible set. -/
theorem checkin_capability_filtering_witness :
    (AgentDoc.mk "a50" "shell" 50 0).action_type ∈ wAgent.supported_actions ∧
    ([⟨"a50", "shell", 50, 0⟩, ⟨"a100", "shell", 100, 1⟩] : List AgentDoc).map
        (fun d => d.action_id) =
      (gatherPhase wState "t1" "s1").map (fun a => a.action_id) :=
  ⟨((checkin_capability_filtering (minCheckInParams "s3") wFilterState false 5 "s3" "s3"
      wSessionV [⟨"a50", "shell", 50, 0⟩] rfl (by decide) (by decide)).1 wAgent
        (by decide)).1 ⟨"a50", "shell", 50, 0⟩ (by decide),
    (checkin_capability_filtering (minCheckInParams "s1") wState false 5 "s1" "s1"
      wSession [⟨"a50", "shell", 50, 0⟩, ⟨"a100", "shell", 100, 1⟩] rfl (by decide)
        (by decide)).2 rfl rfl⟩

theorem checkin_step_state (st : ServerState) (sid : String) (de : Bool) (now : Nat)
    (s : Session) (tg : Target)
    (hsess : Session.get_by_id st sid = some s)
    (htgt : Target.get_by_name st s.target_name = some tg) :
    (session_check_in (minCheckInParams sid) st de now).state.targets = st.targets ∧
    (session_check_in (minCheckInParams sid) st de now).state.sessions =
      st.sessions.map (fun x => if x.session_id == sid then { x with timestamp := now } else x) ∧
    (session_check_in (minCheckInParams sid) st de now).state.histories =
      st.histories.map (fun x =>
        if x.session_id == sid then
          { x with checkin_timestamps := x.checkin_timestamps ++ [now] }
        else x) := by
  have hstate : (session_check_in (minCheckInParams sid) st de now).state =
      (assignLoop sid (Agent.get_by_version st s.agent_version)
        (sortByQueueTime (get_target_unassigned_actions (update_timestamp st sid now)
          s.target_name sid)) 0 (update_timestamp st sid now)).2 := by
    simp only [session_check_in, minCheckInParams, hsess, htgt]
    rfl
  obtain ⟨hT, hSe, hH, _⟩ := assignLoop_preserves sid (Agent.get_by_version st s.agent_version)
    (sortByQueueTime (get_target_unassigned_actions (update_timestamp st sid now)
      s.target_name sid)) 0 (update_timestamp st sid now)
  refine ⟨?_, ?_, ?_⟩
  · rw [hstate, hT]
    rfl
  · rw [hstate, hSe]
    rfl
  · rw [hstate, hH]
    rfl

theorem iter_history (sid : String) (de : Bool) (ts : List Nat) :
    ∀ (st : ServerState) (s : Session) (tg : Target) (h : SessionHistory),
      Session.get_by_id st sid = some s →
      Target.get_by_name st s.target_name = some tg →
      st.histories.find? (fun x => x.session_id == sid) = some h →
      (iterCheckIns sid de ts st).histories.find? (fun x => x.session_id == sid) =
        some ⟨h.session_id, h.checkin_timestamps ++ ts⟩ := by
  induction ts with
  | nil =>
    intro st s tg h h1 h2 h3
    simpa [iterCheckIns] using h3
  | cons t ts ih =>
    intro st s tg h h1 h2 h3
    obtain ⟨hT, hSe, hH⟩ := checkin_step_state st sid de t s tg h1 h2
    have hp : ∀ a : Session,
        ((if a.session_id == sid then { a with timestamp := t } else a).session_id == sid) =
          (a.session_id == sid) := by
      intro a
      by_cases hx : (a.session_id == sid) = true <;> simp [hx]
    have hq : ∀ a : SessionHistory,
        ((if a.session_id == sid then
            { a with checkin_timestamps := a.checkin_timestamps ++ [t] }
          else a).session_id == sid) = (a.session_id == sid) := by
      intro a
      by_cases hx : (a.session_id == sid) = true <;> simp [hx]
    have h1' : Session.get_by_id (session_check_in (minCheckInParams sid) st de t).state sid =
        some { s with timestamp := t } := by
      unfold Session.get_by_id at h1 ⊢
      have hps := List.find?_some h1
      rw [hSe, find?_map_pres _ _ hp, h1]
      simp only [Option.map_some']
      rw [if_pos hps]
    have h2' : Target.get_by_name (session_check_in (minCheckInParams sid) st de t).state
        ({ s with timestamp := t } : Session).target_name = some tg := by
      unfold Target.get_by_name at h2 ⊢
      rw [hT]
      exact h2
    have h3' : (session_check_in (minCheckInParams sid) st de t).state.histories.find?
        (fun x => x.session_id == sid) =
        some { h with checkin_timestamps := h.checkin_timestamps ++ [t] } := by
      have hqs := List.find?_some h3
      rw [hH, find?_map_pres _ _ hq, h3]
      simp only [Option.map_some']
      rw [if_pos hqs]
    have hrec := ih (session_check_in (minCheckInParams sid) st de t).state
      { s with timestamp := t } tg
      { h with checkin_timestamps := h.checkin_timestamps ++ [t] } h1' h2' h3'
    simpa [iterCheckIns, List.append_assoc] using hrec

/-- C4.  Registering a session on a fresh target seeds its
SessionHistory with the creation timestamp (source lines 61-64), and
every subsequent check-in appends exactly one timestamp (line 148 via
update_timestamp), so after the registration contact plus the given
check-ins the history is exactly the list of contact timestamps — one
per check-in, K + 1 entries after K post-registration check-ins — and it
is non-decreasing whenever the clock readings are. -/
theorem session_history_per_checkin (st0 : ServerState) (u tn sid aid : String)
    (now0 : Nat) (ts : List Nat) (de : Bool)
    (hu : st0.targets.find? (fun t => t.uuid == u) = none) :
    (create_session ⟨some u, none, none, none, none, none, none⟩ st0 tn sid aid now0).result =
      Except.ok sid ∧
    (iterCheckIns sid de ts
        (create_session ⟨some u, none, none, none, none, none, none⟩
          st0 tn sid aid now0).state).histories.find?
        (fun x => x.session_id == sid) = some ⟨sid, now0 :: ts⟩ ∧
    (now0 :: ts).length = ts.length + 1 ∧
    (List.Chain (fun a b : Nat => a ≤ b) now0 ts →
      List.Sorted (fun a b : Nat => a ≤ b) (now0 :: ts)) := by
  have hstate : create_session ⟨some u, none, none, none, none, none, none⟩ st0 tn sid aid now0 =
      ⟨Except.ok sid,
        { targets := ⟨tn, u, [], []⟩ :: st0.targets,
          sessions := ⟨sid, tn, now0, DEFAULT_AGENT_SERVERS, DEFAULT_AGENT_INTERVAL,
            DEFAULT_AGENT_INTERVAL_DELTA, DEFAULT_AGENT_CONFIG_DICT, none⟩ :: st0.sessions,
          histories := ⟨sid, [now0]⟩ :: st0.histories,
          actions := st0.actions,
          agents := st0.agents }⟩ := by
    simp only [create_session, createSessionCore, hu, Option.getD_none]
  rw [hstate]
  refine ⟨rfl, ?_, rfl, ?_⟩
  · have h4 := iter_history sid de ts
      ⟨⟨tn, u, [], []⟩ :: st0.targets,
        ⟨sid, tn, now0, DEFAULT_AGENT_SERVERS, DEFAULT_AGENT_INTERVAL,
          DEFAULT_AGENT_INTERVAL_DELTA, DEFAULT_AGENT_CONFIG_DICT, none⟩ :: st0.sessions,
        ⟨sid, [now0]⟩ :: st0.histories, st0.actions, st0.agents⟩
      ⟨sid, tn, now0, DEFAULT_AGENT_SERVERS, DEFAULT_AGENT_INTERVAL,
        DEFAULT_AGENT_INTERVAL_DELTA, DEFAULT_AGENT_CONFIG_DICT, none⟩
      ⟨tn, u, [], []⟩ ⟨sid, [now0]⟩
      (by simp [Session.get_by_id]) (by simp [Target.get_by_name]) (by simp)
    simpa using h4
  · intro hc
    exact List.chain_iff_pairwise.1 hc

/-- C4 witness: registering on an empty store at time 0 and checking in
at times 1, 2, 2 yields the history [0, 1, 2, 2]: four timestamps for
four contacts, in non-decreasing order. -/
theorem session_history_per_checkin_witness :
    (create_session ⟨some "u1", none, none, none, none, none, none⟩
      ⟨[], [], [], [], []⟩ "t1" "s1" "a1" 0).result = Except.ok "s1" ∧
    (iterCheckIns "s1" false [1, 2, 2]
        (create_session ⟨some "u1", none, none, none, none, none, none⟩
          ⟨[], [], [], [], []⟩ "t1" "s1" "a1" 0).state).histories.find?
        (fun x => x.session_id == "s1") = some ⟨"s1", [0, 1, 2, 2]⟩ ∧
    ([0, 1, 2, 2] : List Nat).length = ([1, 2, 2] : List Nat).length + 1 ∧
    (List.Chain (fun a b : Nat => a ≤ b) 0 [1, 2, 2] →
      List.Sorted (fun a b : Nat => a ≤ b) [0, 1, 2, 2]) :=
  session_history_per_checkin ⟨[], [], [], [], []⟩ "u1" "t1" "s1" "a1" 0 [1, 2, 2] false rfl

theorem createSessionCore_preserves (p : CreateSessionParams) (st : ServerState)
    (uuid tn sid : String) (now : Nat) :
    (createSessionCore p st uuid tn sid now).2.agents = st.agents ∧
    (createSessionCore p st uuid tn sid now).2.actions = st.actions := by
  dsimp only [createSessionCore]
  repeat' split
  all_goals exact ⟨rfl, rfl⟩

theorem get_by_version_agents_congr (st st2 : ServerState) (v : Option String)
    (h : st2.agents = st.agents) :
    Agent.get_by_version st2 v = Agent.get_by_version st v := by
  unfold Agent.get_by_version
  cases v
  · rfl
  · rw [h]

/-- C8.  When register is called with a non-empty agent_version that
resolves to an Agent whose default_config is non-empty, registration
succeeds and exactly one action is enqueued: a queued config action
(action string config -c default_config) pinned to the new session
(source lines 77-93).  When the version resolves to no Agent, the
DoesNotExist is swallowed: registration still succeeds and no action is
enqueued. -/
theorem register_bootstrap_config (p : CreateSessionParams) (st : ServerState)
    (tn sid aid : String) (now : Nat) (u v : String)
    (hu : p.target_uuid = some u)
    (hv : p.agent_version = some v) (hvne : v ≠ "") :
    (∀ ag : Agent, Agent.get_by_version st (some v) = some ag → ag.default_config ≠ "" →
      (create_session p st tn sid aid now).result = Except.ok sid ∧
      ∃ tname : String, (create_session p st tn sid aid now).state.actions =
        { action_id := aid, target_name := tname, bound_session_id := some sid,
          action_type := "config", action_string := ["config", "-c", ag.default_config],
          queue_time := now, state := ActionState.queued, session_id := none,
          response := none } :: st.actions) ∧
    (Agent.get_by_version st (some v) = none →
      (create_session p st tn sid aid now).result = Except.ok sid ∧
      (create_session p st tn sid aid now).state.actions = st.actions) := by
  obtain ⟨hca, hcact⟩ := createSessionCore_preserves p st u tn sid now
  have hvb : (v == "") = false := by
    simpa using hvne
  constructor
  · intro ag hag hcfg
    have hagc : Agent.get_by_version (createSessionCore p st u tn sid now).2 (some v) =
        some ag := by
      rw [get_by_version_agents_congr st _ (some v) hca]
      exact hag
    have hcb : (ag.default_config == "") = false := by
      simpa using hcfg
    constructor
    · simp only [create_session, hu, hv, hvb, hagc, hcb, Bool.false_eq_true, if_false]
    · refine ⟨(createSessionCore p st u tn sid now).1.name, ?_⟩
      simp only [create_session, hu, hv, hvb, hagc, hcb, Bool.false_eq_true, if_false,
        create_action, List.headD_cons]
      rw [hcact]
  · intro hag
    have hagc : Agent.get_by_version (createSessionCore p st u tn sid now).2 (some v) =
        none := by
      rw [get_by_version_agents_congr st _ (some v) hca]
      exact hag
    constructor
    · simp only [create_session, hu, hv, hvb, hagc, Bool.false_eq_true, if_false]
    · simp only [create_session, hu, hv, hvb, hagc, Bool.false_eq_true, if_false]
      exact hcact

/-- C8 witness: registering with agent_version v1 on a store holding the
v1 Agent definition (default_config beacon) succeeds and enqueues
exactly one queued config action pinned to the new session s1. -/
theorem register_bootstrap_config_witness :
    (create_session ⟨some "u1", none, none, none, none, none, some "v1"⟩
      ⟨[], [], [], [], [wAgent]⟩ "t1" "s1" "a1" 7).result = Except.ok "s1" ∧
    ∃ tname : String,
      (create_session ⟨some "u1", none, none, none, none, none, some "v1"⟩
        ⟨[], [], [], [], [wAgent]⟩ "t1" "s1" "a1" 7).state.actions =
      [{ action_id := "a1", target_name := tname, bound_session_id := some "s1",
         action_type := "config", action_string := ["config", "-c", "beacon"],
         queue_time := 7, state := ActionState.queued, session_id := none,
         response := none }] :=
  (register_bootstrap_config ⟨some "u1", none, none, none, none, none, some "v1"⟩
    ⟨[], [], [], [], [wAgent]⟩ "t1" "s1" "a1" 7 "u1" "v1" rfl rfl (by decide)).1
    wAgent (by decide) (by decide)

/-- Runtime type test used by the isinstance dict checks. -/
def isDictVal : PVal → Bool
  | PVal.pDict _ => true
  | _ => false

/-- Runtime type test used by the isinstance str check. -/
def isStrVal : PVal → Bool
  | PVal.pStr _ => true
  | _ => false

/-- C9 counterexample: a check-in whose facts value has the wrong
runtime type (a string, not a dict) does not fail with a ValidationError
naming the field — it succeeds with an ordinary success payload and the
ill-typed field is silently ignored (source lines 205-207 guard with
isinstance and skip), leaving the target's facts untouched. -/
theorem invalid_typed_facts_not_rejected :
    (session_check_in wStrFactsParams wQuietState false 5).result = Except.ok ⟨"s1", []⟩ ∧
    (session_check_in wStrFactsParams wQuietState false 5).state.targets = [wTarget] := by
  decide

theorem checkInTail_facts_nonDict (sid tname : String) (agent : Option Agent)
    (a : Option String) (b : Option (List RespInput)) (d e : Option PVal) (v : PVal)
    (de : Bool) (pr : Option ApiError × ServerState × List Event)
    (hnd : isDictVal v = false) :
    checkInTail sid tname agent ⟨a, b, some v, d, e⟩ de pr =
      checkInTail sid tname agent ⟨a, b, none, d, e⟩ de pr := by
  obtain ⟨o, sst, evs⟩ := pr
  cases o
  · cases v with
    | pDict kvs => simp [isDictVal] at hnd
    | pStr s0 => rfl
    | pNum n => rfl
  · rfl

theorem checkInTail_config_nonDict (sid tname : String) (agent : Option Agent)
    (a : Option String) (b : Option (List RespInput)) (c e : Option PVal) (v : PVal)
    (de : Bool) (pr : Option ApiError × ServerState × List Event)
    (hnd : isDictVal v = false) :
    checkInTail sid tname agent ⟨a, b, c, some v, e⟩ de pr =
      checkInTail sid tname agent ⟨a, b, c, none, e⟩ de pr := by
  obtain ⟨o, sst, evs⟩ := pr
  cases o
  · cases v with
    | pDict kvs => simp [isDictVal] at hnd
    | pStr s0 => rfl
    | pNum n => rfl
  · rfl

theorem checkInTail_ip_nonStr (sid tname : String) (agent : Option Agent)
    (a : Option String) (b : Option (List RespInput)) (c d : Option PVal) (v : PVal)
    (de : Bool) (pr : Option ApiError × ServerState × List Event)
    (hns : isStrVal v = false) :
    checkInTail sid tname agent ⟨a, b, c, d, some v⟩ de pr =
      checkInTail sid tname agent ⟨a, b, c, d, none⟩ de pr := by
  obtain ⟨o, sst, evs⟩ := pr
  cases o
  · cases v with
    | pDict kvs => rfl
    | pStr s0 => simp [isStrVal] at hns
    | pNum n => rfl
  · rfl

/-- C9 amended.  A missing required key fails every API call with a
structured ValidationError naming the field (register: target_uuid;
check_in, get_session, update_config: session_id) — modelled from the
spec, the validation wrapper being outside src/.  But a value of invalid
runtime type for the optional check-in fields facts, config and
public_ip is not rejected: the isinstance guards of source lines
196-212 silently ignore the field, and the call behaves exactly as if
the field were absent. -/
theorem validation_behavior :
    (∀ (p : CheckInParams) (st : ServerState) (de : Bool) (now : Nat),
      p.session_id = none →
      (session_check_in p st de now).result =
        Except.error (ApiError.validationError "session_id")) ∧
    (∀ (p : CreateSessionParams) (st : ServerState) (tn sid aid : String) (now : Nat),
      p.target_uuid = none →
      (create_session p st tn sid aid now).result =
        Except.error (ApiError.validationError "target_uuid")) ∧
    (∀ st : ServerState,
      get_session none st = Except.error (ApiError.validationError "session_id")) ∧
    (∀ (p : UpdateConfigParams) (st : ServerState),
      p.session_id = none →
      (update_session_config p st).1 = Except.error (ApiError.validationError "session_id")) ∧
    (∀ (p : CheckInParams) (st : ServerState) (de : Bool) (now : Nat) (v : PVal),
      p.facts = some v → isDictVal v = false →
      session_check_in p st de now = session_check_in { p with facts := none } st de now) ∧
    (∀ (p : CheckInParams) (st : ServerState) (de : Bool) (now : Nat) (v : PVal),
      p.config = some v → isDictVal v = false →
      session_check_in p st de now = session_check_in { p with config := none } st de now) ∧
    (∀ (p : CheckInParams) (st : ServerState) (de : Bool) (now : Nat) (v : PVal),
      p.public_ip = some v → isStrVal v = false →
      session_check_in p st de now = session_check_in { p with public_ip := none } st de now) := by
  refine ⟨?_, ?_, ?_, ?_, ?_, ?_, ?_⟩
  · intro p st de now hsid
    simp [session_check_in, hsid]
  · intro p st tn sid aid now hu
    simp [create_session, hu]
  · intro st
    rfl
  · intro p st hsid
    simp [update_session_config, hsid]
  · intro p st de now v hf hnd
    obtain ⟨a, b, c, d, e⟩ := p
    dsimp only at hf
    subst hf
    cases a
    · rfl
    case some sid =>
      cases hS : Session.get_by_id st sid
      · simp [session_check_in, hS]
      case some s =>
        cases hT : Target.get_by_name st s.target_name
        · simp [session_check_in, hS, hT]
        case some tg =>
          simp only [session_check_in, hS, hT]
          exact checkInTail_facts_nonDict _ _ _ _ _ _ _ _ _ _ hnd
  · intro p st de now v hf hnd
    obtain ⟨a, b, c, d, e⟩ := p
    dsimp only at hf
    subst hf
    cases a
    · rfl
    case some sid =>
      cases hS : Session.get_by_id st sid
      · simp [session_check_in, hS]
      case some s =>
        cases hT : Target.get_by_name st s.target_name
        · simp [session_check_in, hS, hT]
        case some tg =>
          simp only [session_check_in, hS, hT]
          exact checkInTail_config_nonDict _ _ _ _ _ _ _ _ _ _ hnd
  · intro p st de now v hf hns
    obtain ⟨a, b, c, d, e⟩ := p
    dsimp only at hf
    subst hf
    cases a
    · rfl
    case some sid =>
      cases hS : Session.get_by_id st sid
      · simp [session_check_in, hS]
      case some s =>
        cases hT : Target.get_by_name st s.target_name
        · simp [session_check_in, hS, hT]
        case some tg =>
          simp only [session_check_in, hS, hT]
          exact checkInTail_ip_nonStr _ _ _ _ _ _ _ _ _ _ hns

/-- C9 witness: a check-in with no session_id key fails with the
structured ValidationError naming session_id, and a check-in whose
facts value is the string oops behaves exactly as one with no facts
field at all. -/
theorem validation_behavior_witness :
    (session_check_in ⟨none, none, none, none, none⟩ wState false 3).result =
      Except.error (ApiError.validationError "session_id") ∧
    session_check_in wStrFactsParams wQuietState false 5 =
      session_check_in ⟨some "s1", none, none, none, none⟩ wQuietState false 5 :=
  ⟨validation_behavior.1 ⟨none, none, none, none, none⟩ wState false 3 rfl,
   validation_behavior.2.2.2.2.1 wStrFactsParams wQuietState false 5 (PVal.pStr "oops")
     rfl rfl⟩

end Arsenal
